import Mathlib

/-!
Verification of the Botswana network comparison repository.

The Python sources (`comparison_tool.py`, `dashboard.py`,
`airtable_integration.py`) are shallowly embedded below: pandas data frames
become `List SurveyRecord`, numeric 0–10 satisfaction cells become
`Option ℚ` (with `none` for pandas `NaN`), Python dictionaries with `.get`
become structures of `Option` fields, and the `st.stop` abort paths become
`Except`.  Where the Python runtime exposes an unspecified enumeration
order (iteration order of `set(...)`, tie order of
`Series.value_counts()`), the embedding takes the order as an explicit
parameter constrained to be a duplicate-free enumeration of the same
elements, so that "same result on every run" becomes "same result for
every admissible order".
-/

/-- The six characters Python's `str.strip()` removes (ASCII whitespace). -/
def isPyWhitespace (c : Char) : Bool :=
  c == ' ' || c == '\t' || c == '\n' || c == '\x0d' || c == '\x0b' || c == '\x0c'

/-- Strip leading and trailing whitespace from a character list
(model of Python `str.strip()` / pandas `.str.strip()`). -/
def pyStripList (l : List Char) : List Char :=
  ((l.dropWhile isPyWhitespace).reverse.dropWhile isPyWhitespace).reverse

/-- Model of Python `str.strip()`. -/
def pyStrip (s : String) : String :=
  ⟨pyStripList s.data⟩

/-- Split a character list at every comma, keeping empty pieces
(model of Python `str.split(',')` / pandas `.str.split(',')`). -/
def splitCommaChars : List Char → List (List Char)
  | [] => [[]]
  | c :: cs =>
    if c == ',' then [] :: splitCommaChars cs
    else
      match splitCommaChars cs with
      | [] => [[c]]
      | t :: ts => (c :: t) :: ts

/-- Model of Python `s.split(',')`. -/
def splitComma (s : String) : List String :=
  (splitCommaChars s.data).map List.asString

/-- `leadsWith pat l` is true when `pat` is an initial segment of `l`. -/
def leadsWith : List Char → List Char → Bool
  | [], _ => true
  | _ :: _, [] => false
  | a :: as, b :: bs => a == b && leadsWith as bs

/-- `hasSubstr pat l` is true when `pat` occurs contiguously inside `l`. -/
def hasSubstr (pat : List Char) : List Char → Bool
  | [] => pat.isEmpty
  | b :: bs => leadsWith pat (b :: bs) || hasSubstr pat bs

/-- Model of Python's `pat in s` substring test. -/
def strContains (s pat : String) : Bool :=
  hasSubstr pat.data s.data

/-- Recommendation branch of `comparison_tool.main` (lines 217–228):
substring tests against the priority string, first match wins, with the
BTC customer-service branch as the default.  Returns the recommended
network together with the reason string. -/
def recommend (priority : String) : String × String :=
  if strContains priority "Best Price" then
    ("Mascom", "Most affordable data packages according to our user reviews")
  else if strContains priority "Fastest Internet" then
    ("Orange", "Highest ratings for internet speed and reliability")
  else if strContains priority "Overall Quality" then
    ("BTC", "Highest overall customer satisfaction (8.07/10)")
  else
    ("BTC", "Best customer service ratings (8.02/10)")

/-- A raw spreadsheet cell of one of the four satisfaction columns as it
comes out of `pd.read_csv`: a numeric value, non-numeric text, or blank. -/
inductive Cell where
  | num (q : ℚ)
  | text (s : String)
  | null
deriving DecidableEq

/-- Model of `pd.to_numeric(col, errors='coerce')` applied in `load_data`
(comparison_tool.py lines 125–128, dashboard.py lines 74–78): numeric
cells survive, non-numeric text and blanks become missing (`NaN`). -/
def to_numeric_coerce : Cell → Option ℚ
  | .num q => some q
  | .text _ => none
  | .null => none

/-- Model of pandas `Series.mean()` with the default `skipna=True`: the
arithmetic mean of the non-missing entries, `none` (NaN) when there are
no non-missing entries. -/
def seriesMean (xs : List (Option ℚ)) : Option ℚ :=
  let vs := xs.filterMap id
  if vs.length = 0 then none else some (vs.sum / vs.length)

/-- One survey row, restricted to the columns the two apps read.  The four
satisfaction scores are stored after the `to_numeric` coercion, so a
missing or non-numeric cell is `none`. -/
structure SurveyRecord where
  A5_Primary_Mobile_Network : String
  D1_Age : String
  D7_Monthly_Income_Allowance : String
  D3_Location_Botswana : String
  A36A_Experience_overall_experience : Option ℚ
  A36B_Experience_Customer_Service : Option ℚ
  A36C_Experience_communication_channels : Option ℚ
  A36D_Experience_pricing : Option ℚ
  A25_Excel_Areas_Primary_Network : String
  A12_Most_Disliked_Feature : String
deriving DecidableEq

/-- The sidebar filter cascade of `dashboard.main` (lines 124–130): each
multiselect is applied with `isin` only when the selection is non-empty
(Python truthiness of the list). -/
def applyFilters (df : List SurveyRecord)
    (selected_age selected_income selected_location : List String) :
    List SurveyRecord :=
  let f1 := if selected_age.isEmpty then df
    else df.filter (fun r => selected_age.contains r.D1_Age)
  let f2 := if selected_income.isEmpty then f1
    else f1.filter (fun r => selected_income.contains r.D7_Monthly_Income_Allowance)
  if selected_location.isEmpty then f2
  else f2.filter (fun r => selected_location.contains r.D3_Location_Botswana)

/-- Spec-side reading of one active filter: an empty selection imposes no
restriction, a non-empty one requires membership. -/
def passesFilter (sel : List String) (v : String) : Bool :=
  sel.isEmpty || sel.contains v

/-- Result record of `dashboard.calculate_network_scores`. -/
structure NetworkScores where
  overall_experience : Option ℚ
  customer_service : Option ℚ
  communication : Option ℚ
  pricing : Option ℚ
  users : Nat
deriving DecidableEq

/-- `dashboard.calculate_network_scores` (lines 82–94): select the rows
whose primary network equals `network`, then take column means and the
row count. -/
def calculate_network_scores (df : List SurveyRecord) (network : String) :
    NetworkScores :=
  let network_data := df.filter (fun r => r.A5_Primary_Mobile_Network == network)
  { overall_experience :=
      seriesMean (network_data.map (·.A36A_Experience_overall_experience))
  , customer_service :=
      seriesMean (network_data.map (·.A36B_Experience_Customer_Service))
  , communication :=
      seriesMean (network_data.map (·.A36C_Experience_communication_channels))
  , pricing :=
      seriesMean (network_data.map (·.A36D_Experience_pricing))
  , users := network_data.length }

/-- The multi-value tally pipeline
`.str.split(',').explode().str.strip()` (comparison_tool.py line 143,
dashboard.py line 321): split every cell on commas, flatten, strip each
token; each token is one vote. -/
def tokenVotes (cells : List String) : List String :=
  (cells.flatMap splitComma).map pyStrip

/-- One step of Python `max(..., key=key)`: keep the accumulator unless
the next element's key is strictly greater (so the first maximal element
encountered wins). -/
def pyMaxStep (key : α → Nat) (acc y : α) : α :=
  if key y > key acc then y else acc

/-- Model of Python `max(iterable, key=key)`: `none` on the empty
iterable (where Python raises `ValueError`). -/
def pyMaxBy (key : α → Nat) : List α → Option α
  | [] => none
  | x :: xs => some (xs.foldl (pyMaxStep key) x)

/-- `ValidSetOrder lst ord` says `ord` is a possible iteration order of
Python's `set(lst)` (equivalently of a hash table keyed by the distinct
elements of `lst`): duplicate-free and containing exactly the elements
of `lst`. -/
def ValidSetOrder (lst ord : List α) : Prop :=
  ord.Nodup ∧ (∀ x ∈ ord, x ∈ lst) ∧ (∀ x ∈ lst, x ∈ ord)

instance [DecidableEq α] (lst ord : List α) :
    Decidable (ValidSetOrder lst ord) := by
  unfold ValidSetOrder
  infer_instance

/-- `AirtableAutomation._most_common` (airtable_integration.py lines
267–269): `max(set(lst), key=lst.count) if lst else 'N/A'`, with the
iteration order of `set(lst)` passed explicitly as `ord`.  The `getD na`
fallback is unreachable when `ord` is a valid set order of a non-empty
`lst`. -/
def most_common [BEq α] (na : α) (lst ord : List α) : α :=
  if lst.isEmpty then na
  else (pyMaxBy (fun x => lst.count x) ord).getD na

/-- Result record of `comparison_tool.get_network_data`. -/
structure NetworkData where
  name : String
  users : Nat
  overall_score : Option ℚ
  customer_service : Option ℚ
  pricing : Option ℚ
  communication : Option ℚ
  top_strength : String
  top_weakness : String
deriving DecidableEq

/-- `comparison_tool.get_network_data` (lines 132–145).  `ordS` and
`ordW` are the enumeration orders in which `value_counts()` presents the
distinct strength tokens and disliked features; `value_counts().index[0]`
is the first element of maximal count in that order. -/
def get_network_data (df : List SurveyRecord) (network : String)
    (ordS ordW : List String) : NetworkData :=
  let network_df := df.filter (fun r => r.A5_Primary_Mobile_Network == network)
  { name := network
  , users := network_df.length
  , overall_score :=
      seriesMean (network_df.map (·.A36A_Experience_overall_experience))
  , customer_service :=
      seriesMean (network_df.map (·.A36B_Experience_Customer_Service))
  , pricing :=
      seriesMean (network_df.map (·.A36D_Experience_pricing))
  , communication :=
      seriesMean (network_df.map (·.A36C_Experience_communication_channels))
  , top_strength :=
      if network_df.length > 0 then
        (pyMaxBy (fun t =>
          (tokenVotes (network_df.map (·.A25_Excel_Areas_Primary_Network))).count t)
          ordS).getD "N/A"
      else "N/A"
  , top_weakness :=
      if network_df.length > 0 then
        (pyMaxBy (fun v =>
          (network_df.map (·.A12_Most_Disliked_Feature)).count v) ordW).getD "N/A"
      else "N/A" }

/-- The metric rendering used where the dashboard guards against NaN
(dashboard.py lines 381–382, 387–388):
`f"…/10" if not pd.isna(avg) else "N/A"`.  The numeric formatting itself
is abstracted as `fmt`. -/
def reportScore (x : Option ℚ) (fmt : ℚ → String) : String :=
  match x with
  | some q => fmt q ++ "/10"
  | none => "N/A"

/-- The empty-filter guard of `dashboard.main` (lines 134–137): when the
filtered frame is empty the app shows an error and calls `st.stop()`,
modelled as `Except.error`; otherwise rendering continues on the
filtered frame. -/
def dashboardFilterGate (df : List SurveyRecord)
    (selected_age selected_income selected_location : List String) :
    Except String (List SurveyRecord) :=
  let filtered_df := applyFilters df selected_age selected_income selected_location
  if filtered_df.length = 0 then
    Except.error "⚠️ No data matches your filters. Please adjust your selections."
  else Except.ok filtered_df

/-- The candidate locations both `load_data` functions probe, in order
(comparison_tool.py lines 109–113, dashboard.py lines 57–61). -/
def possible_paths : List String :=
  [ "Survey_Responses-Grid_view.csv"
  , "../Survey_Responses-Grid_view.csv"
  , "/mnt/user-data/uploads/Survey_Responses-Grid_view.csv" ]

/-- The `for path … try read … break / else st.error; st.stop()` loop of
both `load_data` functions: `fs` maps a path to its contents when the
read succeeds.  The first readable path wins; if none is readable the
session halts with the visible error message. -/
def tryPaths {α : Type} (fs : String → Option α) : List String → Except String α
  | [] => Except.error "❌ Could not find Survey_Responses-Grid_view.csv"
  | p :: ps =>
    match fs p with
    | some df => Except.ok df
    | none => tryPaths fs ps

/-- `load_data` of comparison_tool.py lines 105–130 (dashboard.py lines
53–80 is structurally identical), restricted to its path-probing and
halting behaviour. -/
def load_data {α : Type} (fs : String → Option α) : Except String α :=
  tryPaths fs possible_paths

/-- Python `str(x)` on an optional string (f-string interpolation of a
`dict.get` result): `None` prints as `"None"`. -/
def pyStr : Option String → String
  | none => "None"
  | some s => s

/-- Python `d.get(key, default)` once the optional lookup result is in
hand. -/
def pyGetD : Option String → String → String
  | none, d => d
  | some s, _ => s

/-- The `lead_data` dictionary passed to `add_lead` / `generate_email`;
every key may be absent (`dict.get` returns `None`). -/
structure LeadData where
  email : Option String
  name : Option String
  network : Option String
  priority : Option String
  usage : Option String
  location : Option String
deriving DecidableEq

/-- The f-string body of `AirtableAutomation.generate_email`
(airtable_integration.py lines 122–155), before the final `.strip()`.
The three benefit lines are conditional on the recommended network; an
absent network interpolates as `"None"`. -/
def email_template (lead_data : LeadData) : String :=
  let network := pyStr lead_data.network
  let name := pyGetD lead_data.name "there"
  "\nSubject: Your Perfect Network Match: " ++ network ++ " 🎯\n\nHi " ++ name
    ++ "!\n\nThanks for using our Network Comparison Tool! Based on your answers, we found that **"
    ++ network ++ "** is your best match.\n\nHere's why " ++ network
    ++ " is perfect for you:\n\n"
    ++ (if lead_data.network == some "Mascom" then
          "✅ **Best Pricing**: Mascom offers the most affordable data packages, perfect for budget-conscious users."
        else "")
    ++ "\n"
    ++ (if lead_data.network == some "Orange" then
          "✅ **Fastest Speed**: Orange has the fastest 4G/5G network in Botswana, ideal for streaming and downloads."
        else "")
    ++ "\n"
    ++ (if lead_data.network == some "BTC" then
          "✅ **Best Service**: BTC has the highest customer satisfaction ratings (8.07/10)."
        else "")
    ++ "\n\n**Your Next Steps:**\n\n1. **Visit " ++ network
    ++ "**: [INSERT AFFILIATE LINK]\n2. **Ask for**: Student/Corporate discount if applicable\n3. **Mention**: Network comparison tool (they may have special offers!)\n\n**Quick Comparison:**\n- Overall Rating: [INSERT SCORE]/10\n- Customer Service: [INSERT SCORE]/10\n- Pricing: [INSERT SCORE]/10\n\nHave questions? Just reply to this email - we're here to help!\n\nCheers,\nBotswana Network Comparison Team\n\nP.S. Save P50-P200/month by switching to the right network! 💰\n\n---\n[Unsubscribe] | [Update Preferences]\n        "

/-- `AirtableAutomation.generate_email` (lines 113–157): the template
followed by `.strip()`. -/
def generate_email (lead_data : LeadData) : String :=
  pyStrip (email_template lead_data)

/-- The `fields` object `add_lead` POSTs to the LEADS table
(airtable_integration.py lines 91–102). -/
structure LeadRecordFields where
  Email : Option String
  Name : String
  Recommended_Network : Option String
  Priority : Option String
  Usage_Type : Option String
  Location : Option String
  Status : String
  AI_Email_Draft : String
deriving DecidableEq

/-- The record construction inside `AirtableAutomation.add_lead`
(lines 80–111): every lead is created with `Status = "New"` and the
generated follow-up email attached. -/
def add_lead_record (lead_data : LeadData) : LeadRecordFields :=
  { Email := lead_data.email
  , Name := pyGetD lead_data.name ""
  , Recommended_Network := lead_data.network
  , Priority := lead_data.priority
  , Usage_Type := lead_data.usage
  , Location := lead_data.location
  , Status := "New"
  , AI_Email_Draft := generate_email lead_data }

/-- The `click_data` dictionary passed to `track_click`. -/
structure ClickData where
  network : Option String
  action : Option String
  session_id : Option String
deriving DecidableEq

/-- The `fields` object `track_click` POSTs to the CLICKS table
(lines 166–173). -/
structure ClickRecordFields where
  Network : Option String
  Action : Option String
  Session_ID : Option String
  Converted : Bool
deriving DecidableEq

/-- The record construction inside `AirtableAutomation.track_click`
(lines 159–181): every click is created with `Converted = False`. -/
def track_click_record (click_data : ClickData) : ClickRecordFields :=
  { Network := click_data.network
  , Action := click_data.action
  , Session_ID := click_data.session_id
  , Converted := false }

/-- The `review_data` dictionary passed to `add_review`. -/
structure ReviewData where
  network : Option String
  rating : Option ℚ
  comment : Option String
  email : Option String
deriving DecidableEq

/-- The `fields` object `add_review` POSTs to the REVIEWS table
(lines 190–198). -/
structure ReviewRecordFields where
  Network : Option String
  Rating : Option ℚ
  Comment : Option String
  User_Email : Option String
  Verified : Bool
deriving DecidableEq

/-- The record construction inside `AirtableAutomation.add_review`
(lines 183–206): every review is created with `Verified = False`. -/
def add_review_record (review_data : ReviewData) : ReviewRecordFields :=
  { Network := review_data.network
  , Rating := review_data.rating
  , Comment := review_data.comment
  , User_Email := review_data.email
  , Verified := false }

/-- The two fields of a stored lead that `get_dashboard_stats` reads;
either may be absent (`l['fields'].get(...)` returns `None`). -/
structure LeadFields where
  Status : Option String
  Recommended_Network : Option String
deriving DecidableEq

/-- The conversion-rate expression of
`AirtableAutomation.get_dashboard_stats` (line 261):
`len([l for l in leads if … == 'Converted']) / max(len(leads), 1) * 100`. -/
def conversion_rate (leads : List LeadFields) : ℚ :=
  ((leads.filter (fun l => l.Status == some "Converted")).length : ℚ)
    / ((max leads.length 1 : ℕ) : ℚ) * 100

/-- The `popular_network` field of `get_dashboard_stats` (line 262):
`_most_common` over every lead's `Recommended_Network` value, with the
`set` iteration order passed explicitly as `ord`.  The Python value is a
string or `None` or the literal `'N/A'`; here `'N/A'` is `some "N/A"`
and `None` is `none`. -/
def popular_network (leads : List LeadFields) (ord : List (Option String)) :
    Option String :=
  most_common (some "N/A") (leads.map (·.Recommended_Network)) ord

/-- A concrete Mascom survey row used to instantiate the theorems. -/
def sampleMascomRow : SurveyRecord :=
  { A5_Primary_Mobile_Network := "Mascom"
  , D1_Age := "18-24"
  , D7_Monthly_Income_Allowance := "P1000-P3000"
  , D3_Location_Botswana := "Gaborone"
  , A36A_Experience_overall_experience := some 7
  , A36B_Experience_Customer_Service := some 8
  , A36C_Experience_communication_channels := some 6
  , A36D_Experience_pricing := some 9
  , A25_Excel_Areas_Primary_Network := "Network coverage, Pricing"
  , A12_Most_Disliked_Feature := "Slow internet" }

/-- The running maximum of `pyMaxStep` is one of the scanned elements. -/
theorem foldl_pyMaxStep_mem (key : α → Nat) (x : α) (xs : List α) :
    xs.foldl (pyMaxStep key) x ∈ x :: xs := by
  induction xs generalizing x with
  | nil => simp
  | cons y ys ih =>
    simp only [List.foldl_cons]
    rcases List.mem_cons.mp (ih (pyMaxStep key x y)) with h | h
    · rw [h]
      simp only [pyMaxStep]
      split
      · exact List.mem_cons_of_mem _ (List.mem_cons_self _ _)
      · exact List.mem_cons_self _ _
    · exact List.mem_cons_of_mem _ (List.mem_cons_of_mem _ h)

/-- The running maximum of `pyMaxStep` dominates every scanned element. -/
theorem foldl_pyMaxStep_le (key : α → Nat) (x : α) (xs : List α) :
    ∀ y ∈ x :: xs, key y ≤ key (xs.foldl (pyMaxStep key) x) := by
  induction xs generalizing x with
  | nil =>
    intro y hy
    rcases List.mem_cons.mp hy with rfl | h
    · simp
    · cases h
  | cons z zs ih =>
    have hx : key x ≤ key (pyMaxStep key x z) := by
      simp only [pyMaxStep]
      split
      · omega
      · exact le_rfl
    have hz : key z ≤ key (pyMaxStep key x z) := by
      simp only [pyMaxStep]
      split
      · exact le_rfl
      · omega
    intro y hy
    simp only [List.foldl_cons]
    rcases List.mem_cons.mp hy with rfl | h
    · exact le_trans hx (ih (pyMaxStep key y z) _ (List.mem_cons_self _ _))
    · rcases List.mem_cons.mp h with rfl | h2
      · exact le_trans hz (ih (pyMaxStep key x y) _ (List.mem_cons_self _ _))
      · exact ih (pyMaxStep key x z) y (List.mem_cons_of_mem _ h2)

/-- Python's `max(iterable, key=key)` returns the strict maximiser when
there is one, regardless of the iteration order. -/
theorem pyMaxBy_eq_of_strict_max (key : α → Nat) (l : List α) (m : α)
    (hm : m ∈ l) (hmax : ∀ y ∈ l, y ≠ m → key y < key m) :
    pyMaxBy key l = some m := by
  cases l with
  | nil => cases hm
  | cons x xs =>
    have hres := foldl_pyMaxStep_mem key x xs
    have hle := foldl_pyMaxStep_le key x xs m hm
    by_cases he : xs.foldl (pyMaxStep key) x = m
    · simp only [pyMaxBy, he]
    · exact absurd hle (not_le.mpr (hmax _ hres he))

/-- Dropping a satisfying prefix preserves some element violating `p`. -/
theorem exists_mem_dropWhile (p : α → Bool) (l : List α) (c : α)
    (hc : c ∈ l) (hpc : p c = false) :
    ∃ d ∈ l.dropWhile p, p d = false := by
  induction l with
  | nil => cases hc
  | cons x xs ih =>
    by_cases hx : p x
    · rw [List.dropWhile_cons_of_pos hx]
      rcases List.mem_cons.mp hc with h | h
      · rw [h, hx] at hpc
        cases hpc
      · exact ih h
    · rw [List.dropWhile_cons_of_neg hx]
      exact ⟨x, List.mem_cons_self _ _, by simpa using hx⟩

/-- Stripping cannot empty a character list that holds a
non-whitespace character. -/
theorem pyStripList_ne_nil (l : List Char) (c : Char) (hc : c ∈ l)
    (hw : isPyWhitespace c = false) : pyStripList l ≠ [] := by
  obtain ⟨d, hd, hdw⟩ := exists_mem_dropWhile isPyWhitespace l c hc hw
  obtain ⟨e, he, _⟩ :=
    exists_mem_dropWhile isPyWhitespace (l.dropWhile isPyWhitespace).reverse d
      (List.mem_reverse.mpr hd) hdw
  intro h
  unfold pyStripList at h
  rw [List.reverse_eq_nil_iff] at h
  rw [h] at he
  cases he

/-- The sequential filter cascade of the dashboard equals one pass with
the conjunction of the three (possibly inactive) facet predicates. -/
theorem applyFilters_eq_filter (df : List SurveyRecord) (a i l : List String) :
    applyFilters df a i l = df.filter (fun r =>
      passesFilter a r.D1_Age && passesFilter i r.D7_Monthly_Income_Allowance
        && passesFilter l r.D3_Location_Botswana) := by
  unfold applyFilters passesFilter
  cases ha : a.isEmpty <;> cases hi : i.isEmpty <;> cases hl : l.isEmpty <;>
    simp [ha, hi, hl, List.filter_filter, Bool.and_comm, Bool.and_left_comm,
      Bool.and_assoc]

set_option maxRecDepth 4000 in
/-- The generated email body always contains the capital S of its fixed
subject line. -/
theorem mem_email_template_S (lead_data : LeadData) :
    'S' ∈ (email_template lead_data).data := by
  have h : 'S' ∈ ("\nSubject: Your Perfect Network Match: " : String).data := by decide
  unfold email_template
  simp only [String.data_append, List.mem_append]
  tauto

/-- `generate_email` never returns the empty string. -/
theorem generate_email_ne_empty (lead_data : LeadData) :
    generate_email lead_data ≠ "" := by
  intro h
  have h2 : pyStripList (email_template lead_data).data = [] := by
    simpa [generate_email, pyStrip] using congrArg String.data h
  exact pyStripList_ne_nil (email_template lead_data).data 'S'
    (mem_email_template_S lead_data) (by decide) h2

/-- C1: the recommender maps priority input to a network by substring
containment against the three literal keys in fixed order, first match
winning; the four quiz labels map to Mascom, Orange, BTC, BTC, and any
input matching none of the keys falls through to the BTC default. -/
theorem C1_recommender_decision_table :
    (recommend "💰 Best Price").1 = "Mascom" ∧
    (recommend "⚡ Fastest Internet").1 = "Orange" ∧
    (recommend "📱 Overall Quality").1 = "BTC" ∧
    (recommend "📞 Best Service").1 = "BTC" ∧
    (∀ p : String, strContains p "Best Price" = true →
      (recommend p).1 = "Mascom") ∧
    (∀ p : String, strContains p "Best Price" = false →
      strContains p "Fastest Internet" = true →
      (recommend p).1 = "Orange") ∧
    (∀ p : String, strContains p "Best Price" = false →
      strContains p "Fastest Internet" = false →
      strContains p "Overall Quality" = true →
      (recommend p).1 = "BTC") ∧
    (∀ p : String, strContains p "Best Price" = false →
      strContains p "Fastest Internet" = false →
      strContains p "Overall Quality" = false →
      (recommend p).1 = "BTC") := by
  refine ⟨by decide, by decide, by decide, by decide, ?_, ?_, ?_, ?_⟩
  · intro p h1
    simp [recommend, h1]
  · intro p h1 h2
    simp [recommend, h1, h2]
  · intro p h1 h2 h3
    simp [recommend, h1, h2, h3]
  · intro p h1 h2 h3
    simp [recommend, h1, h2, h3]

/-- Witness for `C1_recommender_decision_table`: the first-match branch
fires on the concrete quiz label. -/
theorem C1_recommender_decision_table_witness :
    strContains "💰 Best Price" "Best Price" = true ∧
    (recommend "💰 Best Price").1 = "Mascom" :=
  ⟨by decide, C1_recommender_decision_table.2.2.2.2.1 "💰 Best Price" (by decide)⟩

/-- C2: for every network and every filter selection, the user count in
the computed profile equals the number of survey rows whose primary
network matches and that satisfy every active filter, an empty selection
imposing no restriction. -/
theorem C2_user_count_matches_filtered_rows (df : List SurveyRecord)
    (network : String) (a i l : List String) :
    (calculate_network_scores (applyFilters df a i l) network).users =
      (df.filter (fun r => r.A5_Primary_Mobile_Network == network
        && passesFilter a r.D1_Age
        && passesFilter i r.D7_Monthly_Income_Allowance
        && passesFilter l r.D3_Location_Botswana)).length := by
  simp only [calculate_network_scores, applyFilters_eq_filter,
    List.filter_filter]
  congr 1
  apply List.filter_congr
  intro r _
  cases r.A5_Primary_Mobile_Network == network <;>
    cases passesFilter a r.D1_Age <;>
    cases passesFilter i r.D7_Monthly_Income_Allowance <;>
    cases passesFilter l r.D3_Location_Botswana <;> rfl

/-- C3: `to_numeric(errors='coerce')` turns non-numeric cells into
missing values; the column mean skips missing values (it is invariant
under inserting a missing entry, and on fully present columns it is the
arithmetic mean), so a column holding 7, a missing value, and 9 has mean
8; the profile's mean fields are exactly these column means. -/
theorem C3_mean_skips_missing :
    (∀ s : String, to_numeric_coerce (Cell.text s) = none) ∧
    to_numeric_coerce Cell.null = none ∧
    (∀ xs ys : List (Option ℚ),
      seriesMean (xs ++ none :: ys) = seriesMean (xs ++ ys)) ∧
    (∀ (v : ℚ) (vs : List ℚ),
      seriesMean ((v :: vs).map some) =
        some ((v :: vs).sum / (vs.length + 1))) ∧
    seriesMean [some 7, none, some 9] = some 8 ∧
    (∀ df network,
      (calculate_network_scores df network).overall_experience =
        seriesMean ((df.filter
          (fun r => r.A5_Primary_Mobile_Network == network)).map
          (·.A36A_Experience_overall_experience))) := by
  refine ⟨fun s => rfl, rfl, ?_, ?_, ?_, fun df network => rfl⟩
  · intro xs ys
    simp [seriesMean]
  · intro v vs
    simp [seriesMean, List.filterMap_map]
  · norm_num [seriesMean, List.filterMap_cons]

/-- Counterexample to C4: a filter selection that empties the whole
filtered frame (so in particular the BTC subset is empty) makes
`dashboard.main` abort with a visible error (`st.error` + `st.stop`,
lines 134–137) instead of reporting "N/A" profiles. -/
theorem C4_counterexample :
    ((applyFilters [sampleMascomRow] ["25-34"] [] []).filter
      (fun r => r.A5_Primary_Mobile_Network == "BTC") = []) ∧
    dashboardFilterGate [sampleMascomRow] ["25-34"] [] [] =
      Except.error
        "⚠️ No data matches your filters. Please adjust your selections." := by
  constructor
  · rfl
  · rfl

/-- C4 (amended): when the overall filtered frame is non-empty but the
chosen network's subset under the filters is empty, the dashboard does
not abort, every numeric field of the computed profile is missing, the
NaN-guarded metric rendering prints "N/A", and the comparison tool's
profile likewise has missing means and "N/A" text fields. -/
theorem C4_empty_network_subset_na (df : List SurveyRecord)
    (a i l : List String) (network : String)
    (hne : (applyFilters df a i l).length ≠ 0)
    (hempty : (applyFilters df a i l).filter
      (fun r => r.A5_Primary_Mobile_Network == network) = []) :
    dashboardFilterGate df a i l = Except.ok (applyFilters df a i l) ∧
    calculate_network_scores (applyFilters df a i l) network =
      { overall_experience := none, customer_service := none,
        communication := none, pricing := none, users := 0 } ∧
    (∀ fmt, reportScore
      (calculate_network_scores (applyFilters df a i l) network).overall_experience
      fmt = "N/A") ∧
    (∀ ordS ordW,
      get_network_data (applyFilters df a i l) network ordS ordW =
        { name := network, users := 0, overall_score := none,
          customer_service := none, pricing := none, communication := none,
          top_strength := "N/A", top_weakness := "N/A" }) := by
  refine ⟨?_, ?_, ?_, ?_⟩
  · simp [dashboardFilterGate, hne]
  · simp [calculate_network_scores, hempty, seriesMean]
  · intro fmt
    simp [calculate_network_scores, hempty, seriesMean, reportScore]
  · intro ordS ordW
    simp [get_network_data, hempty, seriesMean]

/-- Witness for `C4_empty_network_subset_na`: one Mascom row, no active
filters, profile requested for BTC. -/
theorem C4_empty_network_subset_na_witness :
    dashboardFilterGate [sampleMascomRow] [] [] [] =
      Except.ok (applyFilters [sampleMascomRow] [] [] []) ∧
    calculate_network_scores (applyFilters [sampleMascomRow] [] [] []) "BTC" =
      { overall_experience := none, customer_service := none,
        communication := none, pricing := none, users := 0 } := by
  have h := C4_empty_network_subset_na [sampleMascomRow] [] [] [] "BTC"
    (by decide) (by decide)
  exact ⟨h.1, h.2.1⟩

/-- C5: the multi-value tally splits each cell on commas, trims each
token, counts each token as one vote (the count of a token is the sum of
its per-cell counts), and the reported top value is the most frequent
token; on rows "A, B" and "A" the token "A" gets 2 votes, "B" gets 1,
and "A" is the top token in every enumeration order. -/
theorem C5_multivalue_tokens :
    (tokenVotes ["A, B", "A"]).count "A" = 2 ∧
    (tokenVotes ["A, B", "A"]).count "B" = 1 ∧
    (∀ (cells : List String) (t : String),
      (tokenVotes cells).count t =
        (cells.map (fun c => ((splitComma c).map pyStrip).count t)).sum) ∧
    (∀ ord, ValidSetOrder (tokenVotes ["A, B", "A"]) ord →
      pyMaxBy (fun t => (tokenVotes ["A, B", "A"]).count t) ord = some "A") := by
  refine ⟨by decide, by decide, ?_, ?_⟩
  · intro cells t
    induction cells with
    | nil => rfl
    | cons c cs ih =>
      simp [tokenVotes, List.count_append] at ih ⊢
      omega
  · intro ord hord
    have hl : tokenVotes ["A, B", "A"] = ["A", "B", "A"] := by decide
    apply pyMaxBy_eq_of_strict_max
    · exact hord.2.2 "A" (by rw [hl]; decide)
    · intro y hy hne
      have hmem : y ∈ tokenVotes ["A, B", "A"] := hord.2.1 y hy
      rw [hl] at hmem ⊢
      rcases List.mem_cons.mp hmem with rfl | hmem2
      · exact absurd rfl hne
      · rcases List.mem_cons.mp hmem2 with rfl | hmem3
        · decide
        · rcases List.mem_cons.mp hmem3 with rfl | hmem4
          · exact absurd rfl hne
          · cases hmem4

/-- Witness for `C5_multivalue_tokens`: the top-token conjunct at the
enumeration order `["A", "B"]`. -/
theorem C5_multivalue_tokens_witness :
    pyMaxBy (fun t => (tokenVotes ["A, B", "A"]).count t) ["A", "B"] =
      some "A" :=
  C5_multivalue_tokens.2.2.2 ["A", "B"] (by decide)

/-- Counterexample to C6: `_most_common` is `max(set(lst), key=lst.count)`
and `set` iteration order varies between runs (string hash
randomisation); on the tied input `[Orange, Mascom]` the two possible
set orders yield different winners, so two runs of the program can
produce different mode values. -/
theorem C6_counterexample :
    ValidSetOrder [some "Orange", some "Mascom"]
      [some "Orange", some "Mascom"] ∧
    ValidSetOrder [some "Orange", some "Mascom"]
      [some "Mascom", some "Orange"] ∧
    most_common (some "N/A") [some "Orange", some "Mascom"]
        [some "Orange", some "Mascom"] ≠
      most_common (some "N/A") [some "Orange", some "Mascom"]
        [some "Mascom", some "Orange"] := by
  refine ⟨by decide, by decide, by decide⟩

/-- C6 (amended): a `_most_common` mode computation is deterministic
across runs exactly when ties cannot bite: whenever one value's
multiplicity strictly exceeds every other value's, the result is the
same for every admissible `set` iteration order; under a tie the result
depends on the iteration order (see the counterexample). -/
theorem C6_no_tie_mode_deterministic {α : Type} [BEq α] (na : α)
    (lst ord₁ ord₂ : List α) (m : α)
    (hm : m ∈ lst)
    (hmax : ∀ y ∈ lst, y ≠ m → lst.count y < lst.count m)
    (h₁ : ValidSetOrder lst ord₁) (h₂ : ValidSetOrder lst ord₂) :
    most_common na lst ord₁ = most_common na lst ord₂ := by
  have hne : lst.isEmpty = false := by
    cases lst
    · cases hm
    · rfl
  have r₁ : pyMaxBy (fun x => lst.count x) ord₁ = some m :=
    pyMaxBy_eq_of_strict_max _ _ m (h₁.2.2 m hm)
      (fun y hy hy2 => hmax y (h₁.2.1 y hy) hy2)
  have r₂ : pyMaxBy (fun x => lst.count x) ord₂ = some m :=
    pyMaxBy_eq_of_strict_max _ _ m (h₂.2.2 m hm)
      (fun y hy hy2 => hmax y (h₂.2.1 y hy) hy2)
  simp [most_common, hne, r₁, r₂]

/-- Witness for `C6_no_tie_mode_deterministic`: two Orange leads beat one
Mascom lead in both enumeration orders. -/
theorem C6_no_tie_mode_deterministic_witness :
    most_common (some "N/A")
        [some "Orange", some "Orange", some "Mascom"]
        [some "Orange", some "Mascom"] =
      most_common (some "N/A")
        [some "Orange", some "Orange", some "Mascom"]
        [some "Mascom", some "Orange"] :=
  C6_no_tie_mode_deterministic (some "N/A")
    [some "Orange", some "Orange", some "Mascom"]
    [some "Orange", some "Mascom"] [some "Mascom", some "Orange"]
    (some "Orange") (by decide) (by decide) (by decide) (by decide)

/-- C7: the dashboard summary's conversion rate is the number of leads
with status "Converted" divided by `max(#leads, 1)` times 100: it is 0
on an empty lead collection (the `max` guard prevents a zero division),
equals converted/total·100 whenever leads exist, and is 50 on two leads
of which one is converted. -/
theorem C7_conversion_rate :
    conversion_rate [] = 0 ∧
    (∀ leads : List LeadFields, 0 < leads.length →
      conversion_rate leads =
        ((leads.filter (fun lead => lead.Status == some "Converted")).length : ℚ)
          / (leads.length : ℚ) * 100) ∧
    conversion_rate
      [{ Status := some "Converted", Recommended_Network := some "Orange" },
       { Status := some "New", Recommended_Network := some "BTC" }] = 50 := by
  refine ⟨by norm_num [conversion_rate], ?_, ?_⟩
  · intro leads h
    have hmax : max leads.length 1 = leads.length := Nat.max_eq_left h
    rw [conversion_rate, hmax]
  · have : ([{ Status := some "Converted", Recommended_Network := some "Orange" },
       { Status := some "New", Recommended_Network := some "BTC" }] :
        List LeadFields).filter (fun lead => lead.Status == some "Converted") =
       [{ Status := some "Converted", Recommended_Network := some "Orange" }] := by
      decide
    rw [conversion_rate, this]
    norm_num

/-- Witness for `C7_conversion_rate`: the proportional form evaluated on
the two-lead collection. -/
theorem C7_conversion_rate_witness :
    conversion_rate
      [{ Status := some "Converted", Recommended_Network := some "Orange" },
       { Status := some "New", Recommended_Network := some "BTC" }] =
      (([{ Status := some "Converted", Recommended_Network := some "Orange" },
          { Status := some "New", Recommended_Network := some "BTC" }] :
            List LeadFields).filter
        (fun lead => lead.Status == some "Converted")).length /
        ((2 : ℕ) : ℚ) * 100 :=
  C7_conversion_rate.2.1
    [{ Status := some "Converted", Recommended_Network := some "Orange" },
     { Status := some "New", Recommended_Network := some "BTC" }] (by decide)

/-- C8: both `load_data` functions probe the three candidate paths in
their fixed order and return the first that reads successfully; when no
candidate is readable the session halts with the visible fatal error
(no partial dashboard). -/
theorem C8_load_data_first_path_wins {α : Type} (fs : String → Option α) :
    ((∀ p ∈ possible_paths, fs p = none) →
      load_data fs =
        Except.error "❌ Could not find Survey_Responses-Grid_view.csv") ∧
    (∀ df, fs "Survey_Responses-Grid_view.csv" = some df →
      load_data fs = Except.ok df) ∧
    (∀ df, fs "Survey_Responses-Grid_view.csv" = none →
      fs "../Survey_Responses-Grid_view.csv" = some df →
      load_data fs = Except.ok df) ∧
    (∀ df, fs "Survey_Responses-Grid_view.csv" = none →
      fs "../Survey_Responses-Grid_view.csv" = none →
      fs "/mnt/user-data/uploads/Survey_Responses-Grid_view.csv" = some df →
      load_data fs = Except.ok df) := by
  refine ⟨?_, ?_, ?_, ?_⟩
  · intro h
    have h1 := h "Survey_Responses-Grid_view.csv" (by simp [possible_paths])
    have h2 := h "../Survey_Responses-Grid_view.csv" (by simp [possible_paths])
    have h3 := h "/mnt/user-data/uploads/Survey_Responses-Grid_view.csv"
      (by simp [possible_paths])
    simp [load_data, possible_paths, tryPaths, h1, h2, h3]
  · intro df h1
    simp [load_data, possible_paths, tryPaths, h1]
  · intro df h1 h2
    simp [load_data, possible_paths, tryPaths, h1, h2]
  · intro df h1 h2 h3
    simp [load_data, possible_paths, tryPaths, h1, h2, h3]

/-- Witness for `C8_load_data_first_path_wins`: a filesystem with no
readable candidate halts with the fatal message. -/
theorem C8_load_data_first_path_wins_witness :
    load_data (fun _ => (none : Option Nat)) =
      Except.error "❌ Could not find Survey_Responses-Grid_view.csv" :=
  (C8_load_data_first_path_wins (fun _ => (none : Option Nat))).1
    (fun _ _ => rfl)

/-- C9: every record built by the persistence layer carries its fixed
initial state: `add_lead` sets `Status = "New"` and attaches the
generated, never-empty email draft, `track_click` sets
`Converted = False`, and `add_review` sets `Verified = False`. -/
theorem C9_record_initial_states :
    (∀ lead_data : LeadData,
      (add_lead_record lead_data).Status = "New" ∧
      (add_lead_record lead_data).AI_Email_Draft = generate_email lead_data ∧
      generate_email lead_data ≠ "") ∧
    (∀ click_data : ClickData,
      (track_click_record click_data).Converted = false) ∧
    (∀ review_data : ReviewData,
      (add_review_record review_data).Verified = false) :=
  ⟨fun d => ⟨rfl, rfl, generate_email_ne_empty d⟩, fun _ => rfl, fun _ => rfl⟩

/-- Counterexample to C10: `popular_network` can be the literal "N/A"
with a non-empty lead collection, because the newsletter path of
`comparison_tool.main` (line 414) stores leads whose
`Recommended_Network` is the string "N/A"; so "N/A" does not imply the
collection is empty and the claimed "if and only if" fails. -/
theorem C10_counterexample :
    ValidSetOrder
      (([{ Status := some "New", Recommended_Network := some "N/A" }] :
        List LeadFields).map (·.Recommended_Network))
      [some "N/A"] ∧
    popular_network
      [{ Status := some "New", Recommended_Network := some "N/A" }]
      [some "N/A"] = some "N/A" ∧
    ([{ Status := some "New", Recommended_Network := some "N/A" }] :
      List LeadFields) ≠ [] := by
  refine ⟨by decide, by decide, by decide⟩

/-- C10 (amended): `popular_network` is "N/A" whenever the lead
collection is empty; with at least one lead the mode is taken over every
lead's `Recommended_Network` value, the missing-field placeholder
included, and the result is always a value of maximal multiplicity among
those values — in particular the placeholder itself can be reported
(third conjunct).  The converse fails: a stored "N/A" network value also
produces "N/A" (see the counterexample). -/
theorem C10_popular_network_mode :
    (∀ ord, popular_network [] ord = some "N/A") ∧
    (∀ (leads : List LeadFields) (ord : List (Option String)),
      leads ≠ [] →
      ValidSetOrder (leads.map (·.Recommended_Network)) ord →
      popular_network leads ord ∈ leads.map (·.Recommended_Network) ∧
      ∀ y ∈ leads.map (·.Recommended_Network),
        (leads.map (·.Recommended_Network)).count y ≤
          (leads.map (·.Recommended_Network)).count
            (popular_network leads ord)) ∧
    popular_network [{ Status := some "New", Recommended_Network := none }]
      [none] = none := by
  refine ⟨fun ord => rfl, ?_, by decide⟩
  intro leads ord hleads hord
  have hli : (leads.map (·.Recommended_Network)).isEmpty = false := by
    cases leads
    · exact absurd rfl hleads
    · rfl
  have hordne : ord ≠ [] := by
    intro h
    cases leads with
    | nil => exact absurd rfl hleads
    | cons x xs =>
      have := hord.2.2 x.Recommended_Network (by simp)
      rw [h] at this
      cases this
  obtain ⟨z, zs, hzzs⟩ := List.exists_cons_of_ne_nil hordne
  subst hzzs
  have hresmem := foldl_pyMaxStep_mem
    (fun x => (leads.map (·.Recommended_Network)).count x) z zs
  have hresle := foldl_pyMaxStep_le
    (fun x => (leads.map (·.Recommended_Network)).count x) z zs
  have hpop : popular_network leads (z :: zs) =
      zs.foldl (pyMaxStep (fun x => (leads.map (·.Recommended_Network)).count x)) z := by
    unfold popular_network most_common
    rw [if_neg (by rw [hli]; simp)]
    simp [pyMaxBy]
  constructor
  · rw [hpop]
    exact hord.2.1 _ hresmem
  · intro y hy
    rw [hpop]
    exact hresle y (hord.2.2 y hy)

/-- Witness for `C10_popular_network_mode`: one lead missing the field;
the placeholder is the reported mode and has maximal multiplicity. -/
theorem C10_popular_network_mode_witness :
    popular_network [{ Status := some "New", Recommended_Network := none }]
        [none] ∈
      ([{ Status := some "New", Recommended_Network := none }] :
        List LeadFields).map (·.Recommended_Network) :=
  (C10_popular_network_mode.2.1
    [{ Status := some "New", Recommended_Network := none }] [none]
    (by decide) (by decide)).1
